import Mathlib

/-!
Verification development for the telephony core of contextablemark/clawdbot.

JavaScript strings are modelled as `List Char` (sequences of Unicode scalar
values); JavaScript numbers that the code treats as integers are modelled as
`Int` (with `Option Int` where `NaN` can arise).  Platform crypto primitives
(HMAC, Ed25519, URL parsing, base64) are modelled as an explicit environment
record, and the system clock (`Date.now()`) is an explicit parameter.
-/

set_option maxRecDepth 4096

namespace Clawdbot

/-! ### Basic JavaScript-style helpers -/

/-- Decimal digits of a natural number, as produced by JS `String(n)`. -/
def natDigits (n : Nat) : List Char := Nat.toDigits 10 n

/-- JS `String(i)` for an integral number. -/
def intToChars (i : Int) : List Char :=
  if i < 0 then '-' :: natDigits i.natAbs else natDigits i.natAbs

/-- Whitespace characters recognised by JS `trim` / `parseInt` skipping
(ECMAScript WhiteSpace and LineTerminator code points). -/
def jsWhitespaceChars : List Char :=
  [' ', '\t', '\n', '\r', '\x0b', '\x0c', ' ', ' ', ' ', ' ',
   ' ', ' ', ' ', ' ', ' ', ' ', ' ', ' ',
   ' ', ' ', ' ', ' ', ' ', '　', '﻿']

def isJsWhitespace (c : Char) : Bool := jsWhitespaceChars.contains c

/-- JS `String.prototype.trimStart`. -/
def jsTrimStart (l : List Char) : List Char := l.dropWhile isJsWhitespace

/-- JS `String.prototype.trimEnd`. -/
def jsTrimEnd (l : List Char) : List Char := (l.reverse.dropWhile isJsWhitespace).reverse

/-- JS `String.prototype.trim`. -/
def jsTrim (l : List Char) : List Char := jsTrimStart (jsTrimEnd l)

/-- JS `String.prototype.lastIndexOf` for a single character (-1 when absent). -/
def lastIndexOfChar (l : List Char) (c : Char) : Int :=
  match l.reverse.findIdx? (fun x => x == c) with
  | some i => ((l.length - 1 - i : Nat) : Int)
  | none => -1

/-! ### SMS chunker (src/extensions/telephony/src/sms-chunker.ts) -/

/-- GSM 7-bit default alphabet characters (basic set), exactly the literal
from the source (the space after `Ξ` stands where the source string has it). -/
def GSM7_CHARS : List Char :=
  ("@£$¥èéùìòÇ\nØø\rÅåΔ_ΦΓΛΩΠΨΣΘΞ ÆæßÉ" ++
   " !\"#¤%&\x27()*+,-./0123456789:;<=>?" ++
   "¡ABCDEFGHIJKLMNOPQRSTUVWXYZ" ++
   "ÄÖÑÜabcdefghijklmnopqrstuvwxyz" ++
   "äöñüà§").data

/-- Characters that require an escape in GSM-7 (count as 2 chars). -/
def GSM7_EXTENDED : List Char := "|^€\x7b\x7d[]~\\".data

/-- `isGsm7`: the source iterates the characters and returns false on the
first character in neither set; `List.all` is that loop. -/
def isGsm7 (text : List Char) : Bool :=
  text.all (fun c => GSM7_CHARS.contains c || GSM7_EXTENDED.contains c)

/-- `gsm7Length`: extended characters count as 2 slots. -/
def gsm7Length (text : List Char) : Nat :=
  text.foldl (fun n c => n + (if GSM7_EXTENDED.contains c then 2 else 1)) 0

inductive ChunkMode where
  | auto
  | single
  | multi
  deriving DecidableEq, Repr

structure ChunkOptions where
  mode : ChunkMode
  maxLength : Nat
  segmentNumbering : Bool
  deriving DecidableEq, Repr

/-- The loop inside `findSplitPoint` (and `truncateToLimit`): the number of
leading characters whose cumulative GSM-7 slot count stays within `limit`. -/
def gsmFitCountGo : List Char → Nat → Nat → Nat → Nat
  | [], _, acc, _ => acc
  | c :: rest, len, acc, limit =>
    let w := if GSM7_EXTENDED.contains c then 2 else 1
    if len + w > limit then acc else gsmFitCountGo rest (len + w) (acc + 1) limit

def gsmFitCount (text : List Char) (limit : Nat) : Nat :=
  gsmFitCountGo text 0 0 limit

/-- `findSplitPoint`.  The source compares `lastSpace > maxIdx * 0.3` in
IEEE-754 doubles; for every integer `lastSpace ≥ -1` and `maxIdx ≤ 2^20`
that comparison coincides with the exact rational comparison
`10 * lastSpace > 3 * maxIdx` (the rounding error of `maxIdx * 0.3` is far
below a half unit in the last place and, when `3 * maxIdx / 10` is an
integer, the product rounds to exactly that integer), which is how it is
rendered here. -/
def findSplitPoint (text : List Char) (limit : Nat) (g : Bool) : Nat :=
  let maxIdx := if !g then limit else gsmFitCount text limit
  let searchRegion := text.take maxIdx
  let lastSpace : Int := max (lastIndexOfChar searchRegion ' ') (lastIndexOfChar searchRegion '\n')
  if 10 * lastSpace > 3 * (maxIdx : Int) then (lastSpace + 1).toNat else maxIdx

/-- The `while` loop of `splitIntoSegments`, with explicit fuel.  Every
iteration with a positive split point consumes at least one character, and
for every limit the chunker actually uses (≥ 20) the split point is
positive, so `text.length + 1` fuel is never exhausted; the JS loop would
not terminate in the (unreachable) contrary case. -/
def splitSegmentsGo : Nat → List Char → Nat → Bool → List (List Char)
  | 0, _, _, _ => []
  | fuel + 1, remaining, limit, g =>
    if remaining.length = 0 then []
    else
      let effLen := if g then gsm7Length remaining else remaining.length
      if effLen ≤ limit then [remaining]
      else
        let sp := findSplitPoint remaining limit g
        jsTrimEnd (remaining.take sp) :: splitSegmentsGo fuel (jsTrimStart (remaining.drop sp)) limit g

def splitIntoSegments (text : List Char) (limit : Nat) (g : Bool) : List (List Char) :=
  splitSegmentsGo (text.length + 1) text limit g

/-- `truncateToLimit`.  In the GSM-7 branch the source loop takes characters
while the slot count stays within `limit - 1`, which is `gsmFitCount` at
`limit - 1`. -/
def truncateToLimit (text : List Char) (limit : Nat) (g : Bool) : List Char :=
  if !g then text.take (limit - 1) ++ ['…']
  else text.take (gsmFitCount text (limit - 1)) ++ ['…']

/-- `addSegmentNumbering`.  `baseLimit - overhead` is ℕ-truncated here; the
JS value can be negative, but both fail the `< 20` test the same way. -/
def addSegmentNumbering (text : List Char) (baseLimit : Nat) (g : Bool)
    (estimatedCount : Nat) : List (List Char) :=
  let digits := (natDigits estimatedCount).length
  let overhead := 2 + digits + 1 + digits + 2
  let effectiveLimit := baseLimit - overhead
  if effectiveLimit < 20 then splitIntoSegments text baseLimit g
  else
    let raw := splitIntoSegments text effectiveLimit g
    let total := raw.length
    raw.mapIdx (fun i seg =>
      ['['] ++ natDigits (i + 1) ++ ['/'] ++ natDigits total ++ [']', ' '] ++ seg)

/-- Everything `chunkSms` does after hard truncation and encoding detection
(`g` is the `isGsm7` verdict for the truncated text). -/
def chunkEncoded (truncated : List Char) (g : Bool) (options : ChunkOptions) : List (List Char) :=
  let singleLimit := if g then 160 else 70
  let multiLimit := if g then 153 else 67
  let effectiveLength := if g then gsm7Length truncated else truncated.length
  if effectiveLength ≤ singleLimit then [truncated]
  else if options.mode = ChunkMode.single then [truncateToLimit truncated singleLimit g]
  else
    let segments := splitIntoSegments truncated multiLimit g
    if !options.segmentNumbering || segments.length ≤ 1 then segments
    else addSegmentNumbering truncated multiLimit g segments.length

/-- `chunkSms`. -/
def chunkSms (text : List Char) (options : ChunkOptions) : List (List Char) :=
  if text.isEmpty then []
  else
    let truncated := if text.length > options.maxLength then text.take options.maxLength ++ ['…'] else text
    chunkEncoded truncated (isGsm7 truncated) options

/-! ### UTF-8, percent decoding and `URLSearchParams` -/

/-- UTF-8 byte count of one scalar value. -/
def jsUtf8Size (c : Char) : Nat :=
  if c.toNat < 0x80 then 1
  else if c.toNat < 0x800 then 2
  else if c.toNat < 0x10000 then 3
  else 4

/-- UTF-8 encoding of one scalar value. -/
def utf8BytesOfChar (c : Char) : List Nat :=
  let n := c.toNat
  if n < 0x80 then [n]
  else if n < 0x800 then [0xC0 + n / 64, 0x80 + n % 64]
  else if n < 0x10000 then [0xE0 + n / 4096, 0x80 + (n / 64) % 64, 0x80 + n % 64]
  else [0xF0 + n / 262144, 0x80 + (n / 4096) % 64, 0x80 + (n / 64) % 64, 0x80 + n % 64]

/-- Byte length of a string's UTF-8 encoding, as `Buffer.from(s)` computes. -/
def utf8Len (l : List Char) : Nat := (l.map jsUtf8Size).sum

/-- UTF-8 encoding of a string, the byte content of `Buffer.from(s)`. -/
def utf8Encode (l : List Char) : List Nat := (l.map utf8BytesOfChar).flatten

def isContByte (b : Nat) : Bool := 0x80 ≤ b && b ≤ 0xBF

/-- UTF-8 decoding with U+FFFD replacement for ill-formed input, as the
WHATWG decoder used by `URLSearchParams` behaves.  Each step consumes at
least one byte, so `l.length + 1` fuel is never exhausted; the fuel only
makes the recursion structural. -/
def utf8DecodeGo : Nat → List Nat → List Char
  | 0, _ => []
  | _ + 1, [] => []
  | fuel + 1, b :: rest =>
    if b < 0x80 then Char.ofNat b :: utf8DecodeGo fuel rest
    else if 0xC2 ≤ b && b ≤ 0xDF then
      match rest with
      | b1 :: rest1 =>
        if isContByte b1 then Char.ofNat ((b - 0xC0) * 64 + (b1 - 0x80)) :: utf8DecodeGo fuel rest1
        else '\uFFFD' :: utf8DecodeGo fuel rest
      | [] => ['\uFFFD']
    else if 0xE0 ≤ b && b ≤ 0xEF then
      match rest with
      | b1 :: b2 :: rest2 =>
        if isContByte b1 && isContByte b2 &&
            (!(b == 0xE0) || decide (0xA0 ≤ b1)) && (!(b == 0xED) || decide (b1 ≤ 0x9F)) then
          Char.ofNat ((b - 0xE0) * 4096 + (b1 - 0x80) * 64 + (b2 - 0x80)) :: utf8DecodeGo fuel rest2
        else '\uFFFD' :: utf8DecodeGo fuel rest
      | _ => '\uFFFD' :: utf8DecodeGo fuel rest
    else if 0xF0 ≤ b && b ≤ 0xF4 then
      match rest with
      | b1 :: b2 :: b3 :: rest3 =>
        if isContByte b1 && isContByte b2 && isContByte b3 &&
            (!(b == 0xF0) || decide (0x90 ≤ b1)) && (!(b == 0xF4) || decide (b1 ≤ 0x8F)) then
          Char.ofNat ((b - 0xF0) * 262144 + (b1 - 0x80) * 4096 + (b2 - 0x80) * 64 + (b3 - 0x80))
            :: utf8DecodeGo fuel rest3
        else '\uFFFD' :: utf8DecodeGo fuel rest
      | _ => '\uFFFD' :: utf8DecodeGo fuel rest
    else '\uFFFD' :: utf8DecodeGo fuel rest

def utf8Decode (l : List Nat) : List Char := utf8DecodeGo (l.length + 1) l

def hexDigitVal (c : Char) : Option Nat :=
  if '0' ≤ c && c ≤ '9' then some (c.toNat - 48)
  else if 'A' ≤ c && c ≤ 'F' then some (c.toNat - 55)
  else if 'a' ≤ c && c ≤ 'f' then some (c.toNat - 87)
  else none

/-- Percent-decoding to bytes (non-escape characters contribute their UTF-8
bytes; a `%` not followed by two hex digits is literal). -/
def percentDecodeBytes : List Char → List Nat
  | [] => []
  | '%' :: h1 :: h2 :: rest =>
    match hexDigitVal h1, hexDigitVal h2 with
    | some a, some b => (a * 16 + b) :: percentDecodeBytes rest
    | _, _ => utf8BytesOfChar '%' ++ percentDecodeBytes (h1 :: h2 :: rest)
  | c :: rest => utf8BytesOfChar c ++ percentDecodeBytes rest

/-- One `application/x-www-form-urlencoded` component: `+` becomes a space,
then percent-escapes are decoded as UTF-8 bytes. -/
def formDecodeComponent (s : List Char) : List Char :=
  utf8Decode (percentDecodeBytes (s.map (fun c => if c == '+' then ' ' else c)))

/-- `new URLSearchParams(raw)`: strips one leading `?`, splits on `&`,
skips empty segments, splits each segment at the first `=`, and decodes
keys and values. -/
def formPairs (raw : List Char) : List (List Char × List Char) :=
  let s := match raw with
    | '?' :: rest => rest
    | _ => raw
  (s.splitOn '&').filterMap (fun seg =>
    if seg.isEmpty then none
    else
      some (formDecodeComponent (seg.takeWhile (fun c => !(c == '='))),
            formDecodeComponent ((seg.dropWhile (fun c => !(c == '='))).drop 1)))

/-- `params.get(k)`: first value for the key, or null. -/
def getParam (pairs : List (List Char × List Char)) (k : List Char) : Option (List Char) :=
  (pairs.find? (fun p => p.1 == k)).map (fun p => p.2)

/-! ### JavaScript truthiness and number helpers -/

/-- Truthiness of a JS string-or-null value. -/
def strTruthy : Option (List Char) → Bool
  | none => false
  | some s => !s.isEmpty

/-- JS `a || b` on string-or-null values. -/
def jsOrStr (a b : Option (List Char)) : Option (List Char) :=
  if strTruthy a then a else b

/-- JS `a || ""` on a string-or-null value. -/
def strOrEmpty (a : Option (List Char)) : List Char :=
  if strTruthy a then a.getD [] else []

/-- JS `a || d` on a string-or-null value with a string default. -/
def jsOrStrDefault (a : Option (List Char)) (d : List Char) : List Char :=
  if strTruthy a then a.getD [] else d

/-- JS `a || undefined` on a string-or-null value. -/
def strOrUndef (a : Option (List Char)) : Option (List Char) :=
  if strTruthy a then a else none

/-- JS numbers as this code manipulates them; `none` models `NaN`. -/
abbrev JsNum := Option Int

/-- `parseInt(s, 10)`: skip leading whitespace, optional sign, then leading
decimal digits; `NaN` (`none`) when no digits are found. -/
def jsParseInt (s : List Char) : Option Int :=
  let t := jsTrimStart s
  let signAndRest : Int × List Char :=
    match t with
    | '-' :: r => (-1, r)
    | '+' :: r => (1, r)
    | _ => (1, t)
  let ds := signAndRest.2.takeWhile (fun c => '0' ≤ c && c ≤ '9')
  if ds.isEmpty then none
  else some (signAndRest.1 * ((ds.foldl (fun acc c => acc * 10 + (c.toNat - 48)) 0 : Nat) : Int))

/-! ### JSON value model

`JSON.parse` itself is modelled as an explicit function parameter
(deterministic, `none` when the JS call would throw `SyntaxError`); the
parsers below only inspect the resulting value. -/

inductive JsValue where
  | null
  | bool (b : Bool)
  | num (n : JsNum)
  | str (s : List Char)
  | arr (elems : List JsValue)
  | obj (fields : List (List Char × JsValue))

abbrev JsonParseFn := List Char → Option JsValue

/-- JS truthiness of a value (`null`, `false`, `0`, `NaN`, `""` are falsy). -/
def jsTruthy : JsValue → Bool
  | .null => false
  | .bool b => b
  | .num none => false
  | .num (some n) => decide (n ≠ 0)
  | .str s => !s.isEmpty
  | .arr _ => true
  | .obj _ => true

/-- Truthiness of a possibly-undefined value. -/
def optTruthy : Option JsValue → Bool
  | none => false
  | some v => jsTruthy v

/-- Property access `v.k` on a value known not to be null/undefined
(non-objects yield `undefined`). -/
def jsProp : JsValue → List Char → Option JsValue
  | .obj fields, k => (fields.find? (fun p => p.1 == k)).map (fun p => p.2)
  | _, _ => none

/-- Optional-chaining property access `v?.k`. -/
def jsChainProp : Option JsValue → List Char → Option JsValue
  | none, _ => none
  | some .null, _ => none
  | some v, k => jsProp v k

/-- Optional-chaining index access `v?.[i]`. -/
def jsChainIndex : Option JsValue → Nat → Option JsValue
  | some (.arr l), i => l.get? i
  | some (.obj f), i => (f.find? (fun p => p.1 == natDigits i)).map (fun p => p.2)
  | _, _ => none

/-- JS strict equality `v === "lit"` between a possibly-undefined value and
a string literal. -/
def isStrVal (v : Option JsValue) (s : List Char) : Bool :=
  match v with
  | some (.str t) => t == s
  | _ => false

/-- JS `a || b` on values. -/
def jsOrVal (a b : JsValue) : JsValue := if jsTruthy a then a else b

/-- JS `a || b` where `a` may be undefined. -/
def jsOrOpt (a : Option JsValue) (b : JsValue) : JsValue :=
  match a with
  | some v => if jsTruthy v then v else b
  | none => b

/-- JS `String(v)` for a number (`NaN` prints as `"NaN"`). -/
def jsNumToChars : JsNum → List Char
  | none => "NaN".data
  | some i => intToChars i

/-- JS `String(v)`.  Arrays stringify as their elements joined by `,`
(`null` elements as the empty string), plain objects as
`[object Object]`. -/
def jsToString : JsValue → List Char
  | .null => "null".data
  | .bool true => "true".data
  | .bool false => "false".data
  | .num n => jsNumToChars n
  | .str s => s
  | .obj _ => "[object Object]".data
  | .arr l =>
    (List.intersperse [','] (l.attach.map (fun vp =>
      match vp with
      | ⟨JsValue.null, _⟩ => []
      | ⟨v, _⟩ => jsToString v))).flatten
  decreasing_by
    have h2 : sizeOf v < sizeOf l := List.sizeOf_lt_of_mem (by assumption)
    simp only [JsValue.arr.sizeOf_spec]
    omega

/-! ### Normalized event and result model (types.ts)

The TS event types declare `string` fields, but the parsers assign raw
JSON-derived values to them, so those fields are modelled as `JsValue`
(form-derived strings are injected with `JsValue.str`). -/

inductive MessageStatus where
  | queued
  | sending
  | sent
  | delivered
  | undelivered
  | failed
  | unknown
  deriving DecidableEq, Repr

inductive NormalizedSmsEvent where
  | inboundSms (messageId msgFrom msgTo body : JsValue) (timestamp : Int)
      (mediaUrls : Option (List JsValue)) (numSegments : Option JsNum)
  | deliveryStatus (messageId : JsValue) (status : MessageStatus)
      (errorCode errorMessage : Option JsValue) (timestamp : Int)
  | smsError (messageId : Option JsValue) (errorCode errorMessage : JsValue) (timestamp : Int)

structure InboundSmsParseResult where
  events : List NormalizedSmsEvent
  statusCode : Option Nat
  responseBody : Option (List Char)
  responseHeaders : Option (List (List Char × List Char))

inductive HeaderValue where
  | str (s : List Char)
  | arr (ss : List (List Char))

structure WebhookContext where
  headers : List (List Char × HeaderValue)
  rawBody : List Char
  url : List Char
  method : List Char
  query : List (List Char × List Char)
  remoteAddress : Option (List Char)

/-- `ctx.headers[name]` (Node lower-cases incoming header names). -/
def getHeader (ctx : WebhookContext) (name : List Char) : Option HeaderValue :=
  (ctx.headers.find? (fun p => p.1 == name)).map (fun p => p.2)

/-- The guard `!h || typeof h !== "string"` used on header values: yields
the header only when it is a non-empty string. -/
def headerString : Option HeaderValue → Option (List Char)
  | some (.str s) => if s.isEmpty then none else some s
  | _ => none

/-- Does `hay` contain `sub` as a contiguous run (JS `String.includes`)? -/
def containsSeq (hay sub : List Char) : Bool :=
  (List.range (hay.length + 1)).any (fun i => sub.isPrefixOf (hay.drop i))

/-- `(ctx.headers["content-type"] || "").includes("application/json")`.
A (multi-valued) array header uses `Array.includes`, i.e. exact element
equality. -/
def contentTypeIncludesJson (ctx : WebhookContext) : Bool :=
  match getHeader ctx ("content-type".data) with
  | some (.str s) => containsSeq s ("application/json".data)
  | some (.arr ss) => ss.any (fun s => s == "application/json".data)
  | none => false

/-! ### Status mappers -/

/-- ASCII lowering; the JS `toLowerCase` is full Unicode, but on every input
the mapped comparisons below distinguish, the two agree. -/
def asciiToLower (c : Char) : Char :=
  if 'A' ≤ c && c ≤ 'Z' then Char.ofNat (c.toNat + 32) else c

def jsToLower (s : List Char) : List Char := s.map asciiToLower

/-- `mapTwilioStatus` (switch on `status.toLowerCase()`). -/
def mapTwilioStatus (status : List Char) : MessageStatus :=
  let s := jsToLower status
  if s = "queued".data then .queued
  else if s = "accepted".data then .queued
  else if s = "sending".data then .sending
  else if s = "sent".data then .sent
  else if s = "delivered".data then .delivered
  else if s = "undelivered".data then .undelivered
  else if s = "failed".data then .failed
  else .unknown

/-- `mapTelnyxStatus` (switch on the webhook `event_type`). -/
def mapTelnyxStatus (eventType : List Char) : MessageStatus :=
  if eventType = "message.sent".data then .sent
  else if eventType = "message.delivered".data then .delivered
  else if eventType = "message.failed".data then .failed
  else .unknown

/-- `mapTelnyxSendStatus` (switch on a possibly-undefined status string;
the default case returns `queued`, not `unknown`). -/
def mapTelnyxSendStatus (status : Option (List Char)) : MessageStatus :=
  match status with
  | some s =>
    if s = "queued".data then .queued
    else if s = "sending".data then .sending
    else if s = "sent".data then .sent
    else if s = "delivered".data then .delivered
    else .queued
  | none => .queued

/-- `mapPlivoStatus` (switch on `status.toLowerCase()`). -/
def mapPlivoStatus (status : List Char) : MessageStatus :=
  let s := jsToLower status
  if s = "queued".data then .queued
  else if s = "sent".data then .sent
  else if s = "delivered".data then .delivered
  else if s = "undelivered".data then .undelivered
  else if s = "failed".data then .failed
  else if s = "rejected".data then .failed
  else .unknown

/-! ### Webhook verification -/

inductive WebhookVerificationResult where
  | ok
  | fail (reason : List Char)
  deriving DecidableEq, Repr

/-- A JS exception escaping a function (the spec says verification must
never throw; the adapters below return `Except` to make any throwing path
explicit). -/
inductive JsError where
  | typeError (msg : List Char)
  | rangeError (msg : List Char)
  deriving DecidableEq, Repr

/-- Platform primitives used by the verifiers, as a deterministic
environment: `node:crypto` HMACs (key, message ↦ base64 digest), Ed25519
verification (`.error` models a thrown exception), the forgiving
`Buffer.from(s, "base64")` decoder, and WHATWG `new URL` (`none` models the
thrown `TypeError`; `some (pathname, search)` its components). -/
structure CryptoEnv where
  hmacSha1Base64 : List Char → List Char → List Char
  hmacSha256Base64 : List Char → List Char → List Char
  ed25519Verify : List Nat → List Nat → List Nat → Except (List Char) Bool
  base64Decode : List Char → List Nat
  parseUrl : List Char → Option (List Char × List Char)

structure TwilioProviderOptions where
  accountSid : List Char
  authToken : List Char
  messagingServiceSid : Option (List Char)
  publicUrl : Option (List Char)
  skipSignatureVerification : Bool

structure TelnyxProviderOptions where
  apiKey : List Char
  messagingProfileId : Option (List Char)
  publicKey : Option (List Char)
  skipSignatureVerification : Bool

structure PlivoProviderOptions where
  authId : List Char
  authToken : List Char
  skipSignatureVerification : Bool
  publicUrl : Option (List Char)

/-- `this.opts.publicUrl ? this.opts.publicUrl + new URL(ctx.url).pathname +
new URL(ctx.url).search : ctx.url` — shared by the Twilio and Plivo
verifiers.  An unparseable request URL makes `new URL` throw. -/
def resolveSigningUrl (env : CryptoEnv) (publicUrl : Option (List Char)) (ctxUrl : List Char) :
    Except JsError (List Char) :=
  if strTruthy publicUrl then
    match env.parseUrl ctxUrl with
    | none => .error (.typeError ("Invalid URL: ".data ++ ctxUrl))
    | some parts => .ok ((publicUrl.getD []) ++ parts.1 ++ parts.2)
  else .ok ctxUrl

/-- Lexicographic (code-point) order on strings, the default
`Array.prototype.sort` comparison. -/
def lexLeChars : List Char → List Char → Bool
  | [], _ => true
  | _ :: _, [] => false
  | a :: as, b :: bs =>
    if a.toNat < b.toNat then true
    else if b.toNat < a.toNat then false
    else lexLeChars as bs

/-- Stable insertion of a key into a sorted key list (used to model the
default, lexicographic and stable, `Array.prototype.sort`). -/
def insertKeySorted (k : List Char) : List (List Char) → List (List Char)
  | [] => [k]
  | h :: t => if lexLeChars h k then h :: insertKeySorted k t else k :: h :: t

def sortKeys (l : List (List Char)) : List (List Char) :=
  l.foldr insertKeySorted []

/-- Twilio signing string: resolved URL, then for each POST parameter key in
sorted order `key + params.get(key)` (first value for duplicate keys). -/
def twilioSigningString (url : List Char) (pairs : List (List Char × List Char)) : List Char :=
  url ++ ((sortKeys (pairs.map (fun p => p.1))).map
    (fun k => k ++ (getParam pairs k).getD [])).flatten

/-- `TwilioProvider.verifyWebhook`.  `crypto.timingSafeEqual` receives
`Buffer.from` of both strings and throws a `RangeError` when the byte
lengths differ — the preceding guard only compares string lengths, so that
throwing path is reachable and is modelled as `.error`. -/
def twilioVerifyWebhook (env : CryptoEnv) (opts : TwilioProviderOptions)
    (ctx : WebhookContext) : Except JsError WebhookVerificationResult :=
  if opts.skipSignatureVerification then .ok .ok
  else
    match headerString (getHeader ctx ("x-twilio-signature".data)) with
    | none => .ok (.fail ("Missing X-Twilio-Signature header".data))
    | some signature =>
      match resolveSigningUrl env opts.publicUrl ctx.url with
      | .error e => .error e
      | .ok url =>
        let expected := env.hmacSha1Base64 opts.authToken
          (twilioSigningString url (formPairs ctx.rawBody))
        if expected.length ≠ signature.length then .ok (.fail ("Signature mismatch".data))
        else if utf8Len expected ≠ utf8Len signature then
          .error (.rangeError ("Input buffers must have the same byte length".data))
        else if expected = signature then .ok .ok
        else .ok (.fail ("Signature mismatch".data))

/-- `PlivoProvider.verifyWebhook` (V3: HMAC-SHA256 of url + nonce + raw
body), with the same reachable `timingSafeEqual` throwing path. -/
def plivoVerifyWebhook (env : CryptoEnv) (opts : PlivoProviderOptions)
    (ctx : WebhookContext) : Except JsError WebhookVerificationResult :=
  if opts.skipSignatureVerification then .ok .ok
  else
    match headerString (getHeader ctx ("x-plivo-signature-v3".data)) with
    | none => .ok (.fail ("Missing X-Plivo-Signature-V3 header".data))
    | some signature =>
      match headerString (getHeader ctx ("x-plivo-signature-v3-nonce".data)) with
      | none => .ok (.fail ("Missing X-Plivo-Signature-V3-Nonce header".data))
      | some nonce =>
        match resolveSigningUrl env opts.publicUrl ctx.url with
        | .error e => .error e
        | .ok url =>
          let expected := env.hmacSha256Base64 opts.authToken (url ++ nonce ++ ctx.rawBody)
          if expected.length ≠ signature.length then .ok (.fail ("Signature mismatch".data))
          else if utf8Len expected ≠ utf8Len signature then
            .error (.rangeError ("Input buffers must have the same byte length".data))
          else if expected = signature then .ok .ok
          else .ok (.fail ("Signature mismatch".data))

/-- `TelnyxProvider.verifyWebhook`.  `now` is `Date.now()` in milliseconds.
A non-numeric timestamp gives `NaN`, and `NaN > 300000` is false, so the
staleness check is skipped in that case, exactly as in the source.  The
crypto step sits in a `try`/`catch`, so this function is total. -/
def telnyxVerifyWebhook (env : CryptoEnv) (opts : TelnyxProviderOptions) (now : Int)
    (ctx : WebhookContext) : WebhookVerificationResult :=
  if opts.skipSignatureVerification then .ok
  else if !strTruthy opts.publicKey then
    .fail ("No Telnyx public key configured for verification".data)
  else
    match headerString (getHeader ctx ("telnyx-signature-ed25519".data)) with
    | none => .fail ("Missing telnyx-signature-ed25519 header".data)
    | some signature =>
      match headerString (getHeader ctx ("telnyx-timestamp".data)) with
      | none => .fail ("Missing telnyx-timestamp header".data)
      | some timestamp =>
        let stale := match jsParseInt timestamp with
          | some t => decide ((now - t * 1000).natAbs > 300000)
          | none => false
        if stale then .fail ("Webhook timestamp too old".data)
        else
          match env.ed25519Verify (env.base64Decode (opts.publicKey.getD []))
              (utf8Encode (timestamp ++ ['|'] ++ ctx.rawBody))
              (env.base64Decode signature) with
          | .error msg => .fail ("Verification error: ".data ++ msg)
          | .ok true => .ok
          | .ok false => .fail ("Signature mismatch".data)

/-- `MockProvider.verifyWebhook`: always succeeds. -/
def mockVerifyWebhook (_ctx : WebhookContext) : WebhookVerificationResult := .ok

/-! ### Inbound parsing -/

/-- `TwilioProvider.parseInboundSms` (`now` is `Date.now()`). -/
def twilioParseInboundSms (now : Int) (ctx : WebhookContext) : InboundSmsParseResult :=
  let pairs := formPairs ctx.rawBody
  let messageSid := jsOrStr (getParam pairs ("MessageSid".data)) (getParam pairs ("SmsSid".data))
  let fromS := strOrEmpty (getParam pairs ("From".data))
  let toS := strOrEmpty (getParam pairs ("To".data))
  let bodyS := strOrEmpty (getParam pairs ("Body".data))
  let messageStatus := jsOrStr (getParam pairs ("MessageStatus".data)) (getParam pairs ("SmsStatus".data))
  let numSegments := getParam pairs ("NumSegments".data)
  if strTruthy messageStatus && bodyS.isEmpty && strTruthy messageSid then
    { events := [.deliveryStatus (.str (messageSid.getD []))
        (mapTwilioStatus (messageStatus.getD []))
        ((strOrUndef (getParam pairs ("ErrorCode".data))).map JsValue.str)
        ((strOrUndef (getParam pairs ("ErrorMessage".data))).map JsValue.str)
        now],
      statusCode := some 200,
      responseBody := some ("<Response></Response>".data),
      responseHeaders := some [("Content-Type".data, "application/xml".data)] }
  else if !strTruthy messageSid then
    { events := [], statusCode := some 200,
      responseBody := some ("<Response></Response>".data), responseHeaders := none }
  else
    let numMedia : Nat := match jsParseInt (jsOrStrDefault (getParam pairs ("NumMedia".data)) ("0".data)) with
      | some i => i.toNat
      | none => 0
    let media := (List.range numMedia).filterMap (fun i =>
      match getParam pairs ("MediaUrl".data ++ natDigits i) with
      | some u => if u.isEmpty then none else some (JsValue.str u)
      | none => none)
    { events := [.inboundSms (.str (messageSid.getD [])) (.str fromS) (.str toS) (.str bodyS)
        now
        (if media.length > 0 then some media else none)
        (if strTruthy numSegments then some (jsParseInt (numSegments.getD [])) else none)],
      statusCode := some 200,
      responseBody := some ("<Response></Response>".data),
      responseHeaders := some [("Content-Type".data, "application/xml".data)] }

/-- The `for (const m of messagePayload.media)` loop body: a `null` element
makes `m.url` throw; otherwise a truthy `m.url` is pushed. -/
def telnyxMediaFromList : List JsValue → Except JsError (List JsValue)
  | [] => .ok []
  | m :: rest =>
    match m with
    | .null => .error (.typeError ("Cannot read properties of null (reading \x27url\x27)".data))
    | _ =>
      let contrib := match jsProp m ("url".data) with
        | some u => if jsTruthy u then [u] else []
        | none => []
      (telnyxMediaFromList rest).map (fun tail => contrib ++ tail)

/-- `if (messagePayload.media?.length) - for (const m of ...)`: arrays are
iterated; a string has a `length` and iterates into one-character strings
(none of which has a `url` property); any other truthy-`length` value is
not iterable and throws. -/
def telnyxCollectMedia : Option JsValue → Except JsError (List JsValue)
  | some (.arr l) => if l.length ≠ 0 then telnyxMediaFromList l else .ok []
  | some (.str _) => .ok []
  | some (.obj f) =>
    if optTruthy ((f.find? (fun p => p.1 == "length".data)).map (fun p => p.2)) then
      .error (.typeError ("messagePayload.media is not iterable".data))
    else .ok []
  | _ => .ok []

/-- `TelnyxProvider.parseInboundSms`.  `JSON.parse` returning `null` makes
the later unguarded `payload.data` access throw (the `try` only wraps the
parse), hence the `Except` result. -/
def telnyxParseInboundSms (jp : JsonParseFn) (now : Int) (ctx : WebhookContext) :
    Except JsError InboundSmsParseResult :=
  match jp ctx.rawBody with
  | none =>
    .ok { events := [], statusCode := some 400,
          responseBody := some ("Invalid JSON".data), responseHeaders := none }
  | some JsValue.null =>
    .error (.typeError ("Cannot read properties of null (reading \x27data\x27)".data))
  | some payload =>
    let dataOpt := jsProp payload ("data".data)
    if !optTruthy dataOpt then
      .ok { events := [], statusCode := some 200, responseBody := some [], responseHeaders := none }
    else
      let dat := dataOpt.getD JsValue.null
      let eventType := jsProp dat ("event_type".data)
      let eventTypeStr := match eventType with
        | some (.str s) => s
        | _ => []
      if isStrVal eventType ("message.sent".data) ||
          isStrVal eventType ("message.delivered".data) ||
          isStrVal eventType ("message.failed".data) then
        let mp := jsProp dat ("payload".data)
        .ok { events := [(.deliveryStatus
                (jsOrOpt (jsChainProp mp ("id".data)) (jsOrOpt (jsProp dat ("id".data)) (.str [])))
                (mapTelnyxStatus eventTypeStr)
                (jsChainProp (jsChainIndex (jsChainProp mp ("errors".data)) 0) ("code".data))
                (jsChainProp (jsChainIndex (jsChainProp mp ("errors".data)) 0) ("title".data))
                now)],
              statusCode := some 200, responseBody := some [], responseHeaders := none }
      else if isStrVal eventType ("message.received".data) then
        let mpOpt := jsProp dat ("payload".data)
        if !optTruthy mpOpt then
          .ok { events := [], statusCode := some 200, responseBody := some [], responseHeaders := none }
        else
          let mp := mpOpt.getD JsValue.null
          match telnyxCollectMedia (jsProp mp ("media".data)) with
          | .error e => .error e
          | .ok mediaUrls =>
            .ok { events := [(.inboundSms
                    (jsOrOpt (jsProp dat ("id".data)) (jsOrOpt (jsProp mp ("id".data)) (.str [])))
                    (jsOrOpt (jsChainProp (jsProp mp ("from".data)) ("phone_number".data)) (.str []))
                    (jsOrOpt (jsChainProp (jsChainIndex (jsProp mp ("to".data)) 0) ("phone_number".data)) (.str []))
                    (jsOrOpt (jsProp mp ("text".data)) (.str []))
                    now
                    (if mediaUrls.length > 0 then some mediaUrls else none)
                    none)],
                  statusCode := some 200, responseBody := some [], responseHeaders := none }
      else
        .ok { events := [], statusCode := some 200, responseBody := some [], responseHeaders := none }

/-- `String(body.MediaUrls).split(",").map(u => u.trim()).filter(Boolean)`. -/
def plivoSplitMedia (s : List Char) : List JsValue :=
  (((s.splitOn ',').map jsTrim).filter (fun u => !u.isEmpty)).map JsValue.str

/-- The shared tail of `PlivoProvider.parseInboundSms` once `from`, `to`,
`text`, `messageUuid` and `messageType` have been extracted from either the
JSON or the form body. -/
def plivoClassify (jp : JsonParseFn) (now : Int) (ctx : WebhookContext) (isJson : Bool)
    (fromV toV textV uuidV : JsValue) (mtype : Option JsValue) :
    Except JsError InboundSmsParseResult :=
  if isStrVal mtype ("dlr".data) || (!jsTruthy textV && jsTruthy uuidV) then
    let statusVal : JsValue :=
      if isJson then
        match jp ctx.rawBody with
        | none => .str ("unknown".data)
        | some JsValue.null => .str ("unknown".data)
        | some body => jsOrOpt (jsProp body ("Status".data)) (.str ("unknown".data))
      else
        .str (jsOrStrDefault (getParam (formPairs ctx.rawBody) ("Status".data)) ("unknown".data))
    match statusVal with
    | .str s =>
      .ok { events := [(.deliveryStatus uuidV (mapPlivoStatus s) none none now)],
            statusCode := some 200,
            responseBody := some ("<Response></Response>".data),
            responseHeaders := some [("Content-Type".data, "application/xml".data)] }
    | _ => .error (.typeError ("status.toLowerCase is not a function".data))
  else if !jsTruthy uuidV && !jsTruthy textV then
    .ok { events := [], statusCode := some 200,
          responseBody := some ("<Response></Response>".data), responseHeaders := none }
  else
    let mediaUrls : Option (List JsValue) :=
      if isJson then
        match jp ctx.rawBody with
        | none => none
        | some JsValue.null => none
        | some body =>
          match jsProp body ("MediaUrls".data) with
          | some mv => if jsTruthy mv then some (plivoSplitMedia (jsToString mv)) else none
          | none => none
      else
        match getParam (formPairs ctx.rawBody) ("MediaUrls".data) with
        | some raw => if raw.isEmpty then none else some (plivoSplitMedia raw)
        | none => none
    let mediaField := match mediaUrls with
      | some l => if l.length ≠ 0 then some l else none
      | none => none
    .ok { events := [(.inboundSms
            (jsOrVal uuidV (.str ("plivo-".data ++ intToChars now)))
            fromV toV textV now mediaField none)],
          statusCode := some 200,
          responseBody := some ("<Response></Response>".data),
          responseHeaders := some [("Content-Type".data, "application/xml".data)] }

/-- `PlivoProvider.parseInboundSms`.  A non-string truthy `Status` in a dlr
makes `status.toLowerCase()` throw (outside any `try`), hence `Except`.
`JSON.parse` yielding `null` makes `body.From` throw inside the `try`,
which the `catch` turns into the 400 response. -/
def plivoParseInboundSms (jp : JsonParseFn) (now : Int) (ctx : WebhookContext) :
    Except JsError InboundSmsParseResult :=
  let isJson := contentTypeIncludesJson ctx
  if isJson then
    match jp ctx.rawBody with
    | none =>
      .ok { events := [], statusCode := some 400,
            responseBody := some ("Invalid JSON".data), responseHeaders := none }
    | some JsValue.null =>
      .ok { events := [], statusCode := some 400,
            responseBody := some ("Invalid JSON".data), responseHeaders := none }
    | some body =>
      plivoClassify jp now ctx isJson
        (jsOrOpt (jsProp body ("From".data)) (.str []))
        (jsOrOpt (jsProp body ("To".data)) (.str []))
        (jsOrOpt (jsProp body ("Text".data)) (.str []))
        (jsOrOpt (jsProp body ("MessageUUID".data)) (.str []))
        (jsProp body ("Type".data))
  else
    let pairs := formPairs ctx.rawBody
    plivoClassify jp now ctx isJson
      (.str (strOrEmpty (getParam pairs ("From".data))))
      (.str (strOrEmpty (getParam pairs ("To".data))))
      (.str (strOrEmpty (getParam pairs ("Text".data))))
      (.str (strOrEmpty (getParam pairs ("MessageUUID".data))))
      ((strOrUndef (getParam pairs ("Type".data))).map JsValue.str)

/-- `MockProvider.parseInboundSms`: the whole body is inside `try`/`catch`,
so invalid JSON (and a `null` body, whose property access throws) yields
zero events with a 200 acknowledgement. -/
def mockParseInboundSms (jp : JsonParseFn) (now : Int) (ctx : WebhookContext) :
    InboundSmsParseResult :=
  match jp ctx.rawBody with
  | none => { events := [], statusCode := some 200, responseBody := some ("OK".data), responseHeaders := none }
  | some JsValue.null => { events := [], statusCode := some 200, responseBody := some ("OK".data), responseHeaders := none }
  | some body =>
    { events := [.inboundSms
        (jsOrOpt (jsProp body ("messageId".data)) (.str ("mock-".data ++ intToChars now)))
        (jsOrOpt (jsProp body ("from".data)) (.str ("+15550000000".data)))
        (jsOrOpt (jsProp body ("to".data)) (.str ("+15550000001".data)))
        (jsOrOpt (jsProp body ("body".data)) (jsOrOpt (jsProp body ("text".data)) (.str [])))
        now none none],
      statusCode := some 200, responseBody := some ("OK".data), responseHeaders := none }

/-! ### Clock erasure (for the determinism claim) -/

/-- Zero out the clock-derived timestamp of an event. -/
def eraseEventClock : NormalizedSmsEvent → NormalizedSmsEvent
  | .inboundSms i f t b _ m ns => .inboundSms i f t b 0 m ns
  | .deliveryStatus i s ec em _ => .deliveryStatus i s ec em 0
  | .smsError i ec em _ => .smsError i ec em 0

/-- Zero out the timestamp and (for inbound events, where Plivo and Mock
synthesize clock-based fallback ids) the messageId. -/
def eraseEventClockId : NormalizedSmsEvent → NormalizedSmsEvent
  | .inboundSms _ f t b _ m ns => .inboundSms (.str []) f t b 0 m ns
  | .deliveryStatus i s ec em _ => .deliveryStatus i s ec em 0
  | .smsError i ec em _ => .smsError i ec em 0

def eraseClock (r : InboundSmsParseResult) : InboundSmsParseResult :=
  { r with events := r.events.map eraseEventClock }

def eraseClockId (r : InboundSmsParseResult) : InboundSmsParseResult :=
  { r with events := r.events.map eraseEventClockId }

/-- The per-event timestamps of a parse result. -/
def eventTimestamp : NormalizedSmsEvent → Int
  | .inboundSms _ _ _ _ ts _ _ => ts
  | .deliveryStatus _ _ _ _ ts => ts
  | .smsError _ _ _ ts => ts

/-- Is the event a delivery-status event? -/
def isDeliveryStatusEvent : NormalizedSmsEvent → Bool
  | .deliveryStatus _ _ _ _ _ => true
  | _ => false

/-! ### Webhook ingress server (handleRequest routing) -/

inductive BodyReadError where
  | tooLarge
  | readFailure
  deriving DecidableEq

/-- The provider capability surface the server consumes (the interface of
providers/base.ts, with verify/parse as the server assumes them: total). -/
structure ProviderModel where
  name : List Char
  verifyWebhook : WebhookContext → WebhookVerificationResult
  parseInboundSms : WebhookContext → InboundSmsParseResult

structure ServerRequest where
  method : List Char
  url : List Char
  host : List Char
  headers : List (List Char × HeaderValue)
  remoteAddress : Option (List Char)

structure ServerResponse where
  statusCode : Nat
  body : List Char
  headers : List (List Char × List Char)
  deriving DecidableEq, Repr

/-- `new URL(req.url || "/", base).pathname` for the origin-relative URLs
Node supplies: the part before any `?` or `#`. -/
def pathnameOf (u : List Char) : List Char :=
  (if u.isEmpty then "/".data else u).takeWhile (fun c => !(c == '?') && !(c == '#'))

/-- `Object.fromEntries` over an entry list: later entries win. -/
def upsertEntry (acc : List (List Char × List Char)) (kv : List Char × List Char) :
    List (List Char × List Char) :=
  if acc.any (fun p => p.1 == kv.1) then
    acc.map (fun p => if p.1 == kv.1 then (p.1, kv.2) else p)
  else acc ++ [kv]

/-- `Object.fromEntries(url.searchParams)`. -/
def queryPairsOf (u : List Char) : List (List Char × List Char) :=
  match u.splitOn '?' with
  | _ :: q :: _ => (formPairs (q.takeWhile (fun c => !(c == '#')))).foldl upsertEntry []
  | _ => []

/-- The health-check body `JSON.stringify({ ok: true, provider: name })`. -/
def healthJson (name : List Char) : List Char :=
  "\x7b\"ok\":true,\"provider\":\"".data ++ name ++ "\"\x7d".data

/-- `TelephonyWebhookServer.handleRequest`.  The body read is summarised by
`bodyOutcome` (`tooLarge` yields the 413 response; any other read error is
rethrown and the server wrapper answers 500).  Handler exceptions raised
while dispatching events are caught and logged, so the response is a
function of the parse result alone. -/
def handleRequest (p : ProviderModel) (webhookPath statusPath : List Char)
    (req : ServerRequest) (bodyOutcome : Except BodyReadError (List Char)) : ServerResponse :=
  let pathname := pathnameOf req.url
  if pathname == "/health".data && req.method == "GET".data then
    { statusCode := 200, body := healthJson p.name, headers := [] }
  else if !(req.method == "POST".data) then
    { statusCode := 405, body := "Method Not Allowed".data, headers := [] }
  else if !(webhookPath.isPrefixOf pathname) && !(statusPath.isPrefixOf pathname) then
    { statusCode := 404, body := "Not Found".data, headers := [] }
  else
    match bodyOutcome with
    | .error .tooLarge => { statusCode := 413, body := "Payload Too Large".data, headers := [] }
    | .error .readFailure => { statusCode := 500, body := "Internal Server Error".data, headers := [] }
    | .ok body =>
      let ctx : WebhookContext :=
        { headers := req.headers, rawBody := body,
          url := "http://".data ++ req.host ++ req.url, method := "POST".data,
          query := queryPairsOf req.url, remoteAddress := req.remoteAddress }
      match p.verifyWebhook ctx with
      | .fail _ => { statusCode := 401, body := "Unauthorized".data, headers := [] }
      | .ok =>
        let result := p.parseInboundSms ctx
        { statusCode := match result.statusCode with
            | some n => if n = 0 then 200 else n
            | none => 200,
          body := match result.responseBody with
            | some b => if b.isEmpty then "OK".data else b
            | none => "OK".data,
          headers := result.responseHeaders.getD [] }

/-! ### Claim-statement helpers (named predicates restating the spec's
classification conditions, for the Twilio parsing claim) -/

/-- `MessageSid` falling back to legacy `SmsSid`. -/
def twilioSidParam (pairs : List (List Char × List Char)) : Option (List Char) :=
  jsOrStr (getParam pairs ("MessageSid".data)) (getParam pairs ("SmsSid".data))

/-- `MessageStatus` falling back to legacy `SmsStatus`. -/
def twilioStatusParam (pairs : List (List Char × List Char)) : Option (List Char) :=
  jsOrStr (getParam pairs ("MessageStatus".data)) (getParam pairs ("SmsStatus".data))

/-- The delivery-status-callback condition the code actually implements:
a (non-empty) status parameter, no non-empty `Body`, and a (non-empty)
message sid. -/
def twilioDlrCond (pairs : List (List Char × List Char)) : Bool :=
  strTruthy (twilioStatusParam pairs) &&
    (strOrEmpty (getParam pairs ("Body".data))).isEmpty &&
    strTruthy (twilioSidParam pairs)

/-- `parseInt(params.get("NumMedia") || "0", 10)` clamped to the number of
loop iterations `i < numMedia` performs. -/
def twilioNumMedia (pairs : List (List Char × List Char)) : Nat :=
  match jsParseInt (jsOrStrDefault (getParam pairs ("NumMedia".data)) ("0".data)) with
  | some i => i.toNat
  | none => 0

/-- Media URLs collected from `MediaUrl0..MediaUrl{NumMedia-1}` (truthy
values only), as the claim states. -/
def twilioClaimMedia (pairs : List (List Char × List Char)) : List JsValue :=
  (List.range (twilioNumMedia pairs)).filterMap (fun i =>
    match getParam pairs ("MediaUrl".data ++ natDigits i) with
    | some u => if u.isEmpty then none else some (JsValue.str u)
    | none => none)

/-! ### Concrete instances used by counterexamples and witnesses -/

/-- A concrete, deterministic crypto environment.  Real HMAC-SHA1 (resp.
HMAC-SHA256) digests in base64 are always 28 (resp. 44) ASCII characters;
the stand-ins share exactly that shape. -/
def stdCrypto : CryptoEnv where
  hmacSha1Base64 := fun _ _ => List.replicate 28 'A'
  hmacSha256Base64 := fun _ _ => List.replicate 44 'A'
  ed25519Verify := fun _ _ _ => .ok false
  base64Decode := fun _ => []
  parseUrl := fun _ => some ([], [])

def c1Opts : TwilioProviderOptions :=
  { accountSid := "AC00".data, authToken := "token".data,
    messagingServiceSid := none, publicUrl := none, skipSignatureVerification := false }

/-- A context whose `x-twilio-signature` header has 28 characters (so the
string-length guard passes against a 28-character digest) but 29 UTF-8
bytes, because of the leading `é`. -/
def c1Ctx : WebhookContext :=
  { headers := [("x-twilio-signature".data, .str ('é' :: List.replicate 27 'A'))],
    rawBody := [], url := "http://localhost/telephony/webhook".data,
    method := "POST".data, query := [], remoteAddress := none }

def c2Ctx : WebhookContext :=
  { headers := [], rawBody := "MessageSid=SM1".data,
    url := "http://localhost/telephony/webhook".data,
    method := "POST".data, query := [], remoteAddress := none }

/-- A form body carrying `MessageStatus` and no `Body`, but no
`MessageSid`/`SmsSid`. -/
def c3Ctx : WebhookContext :=
  { headers := [], rawBody := "MessageStatus=delivered".data,
    url := "http://localhost/telephony/webhook".data,
    method := "POST".data, query := [], remoteAddress := none }

def c3wCtx : WebhookContext :=
  { headers := [], rawBody := "MessageSid=SM9&Body=Hello&From=%2B1".data,
    url := "http://localhost/telephony/webhook".data,
    method := "POST".data, query := [], remoteAddress := none }

/-- Telnyx options with a configured public key and verification NOT
skipped. -/
def c4Opts : TelnyxProviderOptions :=
  { apiKey := "key".data, messagingProfileId := none,
    publicKey := some ("Zm9v".data), skipSignatureVerification := false }

/-- A stale-timestamped context with no signature header at all. -/
def c4Ctx : WebhookContext :=
  { headers := [("telnyx-timestamp".data, .str ("0".data))],
    rawBody := [], url := "http://localhost/telephony/webhook".data,
    method := "POST".data, query := [], remoteAddress := none }

/-- A stale-timestamped context with both Telnyx headers present. -/
def c4wCtx : WebhookContext :=
  { headers := [("telnyx-signature-ed25519".data, .str ("c2ln".data)),
                ("telnyx-timestamp".data, .str ("0".data))],
    rawBody := [], url := "http://localhost/telephony/webhook".data,
    method := "POST".data, query := [], remoteAddress := none }

/-- The status strings `mapTwilioStatus` maps explicitly (after
lower-casing). -/
def twilioMappedStatuses : List (List Char) :=
  ["queued".data, "accepted".data, "sending".data, "sent".data,
   "delivered".data, "undelivered".data, "failed".data]

/-- The event types `mapTelnyxStatus` maps explicitly. -/
def telnyxEventTypes : List (List Char) :=
  ["message.sent".data, "message.delivered".data, "message.failed".data]

/-- The status strings `mapTelnyxSendStatus` maps explicitly. -/
def telnyxSendMapped : List (List Char) :=
  ["queued".data, "sending".data, "sent".data, "delivered".data]

/-- The status strings `mapPlivoStatus` maps explicitly (after
lower-casing). -/
def plivoMappedStatuses : List (List Char) :=
  ["queued".data, "sent".data, "delivered".data, "undelivered".data,
   "failed".data, "rejected".data]

/-- A no-op provider for exercising the server's routing alone. -/
def trivialProvider : ProviderModel :=
  { name := "mock".data,
    verifyWebhook := fun _ => .ok,
    parseInboundSms := fun _ =>
      { events := [], statusCode := some 200, responseBody := some ("OK".data),
        responseHeaders := none } }

/-- A GET request to a path that is neither `/health` nor either configured
webhook path. -/
def c8Req : ServerRequest :=
  { method := "GET".data, url := "/foo".data, host := "localhost".data,
    headers := [], remoteAddress := none }

def c8PostReq : ServerRequest :=
  { method := "POST".data, url := "/nowhere".data, host := "localhost".data,
    headers := [], remoteAddress := none }

/-! ## Theorems -/

/-- C5: for "A" repeated 320 times with `{mode. auto, maxLength. 1600,
segmentNumbering. true}`, `chunkSms` returns exactly 3 segments and the
i-th segment starts with the prefix `"[i/3] "` (here proved by computing
the exact result: 146 + 146 + 28 characters of payload). -/
theorem C5_chunk_320A :
    chunkSms (List.replicate 320 'A') ⟨ChunkMode.auto, 1600, true⟩ =
      ["[1/3] ".data ++ List.replicate 146 'A',
       "[2/3] ".data ++ List.replicate 146 'A',
       "[3/3] ".data ++ List.replicate 28 'A'] := by decide

/-- C6 (amended): `chunkSms "" opts = []` for every opts; and for every
non-empty `s` whose plain length does not exceed `opts.maxLength` (so hard
truncation does not fire — the original claim omitted this condition) and
whose effective length fits the applicable single-SMS limit, `chunkSms`
returns `[s]` unchanged, with no numbering prefix. -/
theorem C6_amended :
    (∀ o : ChunkOptions, chunkSms [] o = []) ∧
    (∀ (s : List Char) (o : ChunkOptions), s ≠ [] → s.length ≤ o.maxLength →
      (if isGsm7 s then gsm7Length s else s.length) ≤ (if isGsm7 s then 160 else 70) →
      chunkSms s o = [s]) := by
  constructor
  · intro o; rfl
  · intro s o hne hlen heff
    have hempty : s.isEmpty = false := by
      cases s with
      | nil => exact absurd rfl hne
      | cons a t => rfl
    have hnotlong : ¬ s.length > o.maxLength := Nat.not_lt.mpr hlen
    simp only [chunkSms, chunkEncoded, hempty, Bool.false_eq_true, if_false,
      if_neg hnotlong, if_pos heff]

/-- C6 witness: a concrete short message is returned unchanged. -/
theorem C6_witness : chunkSms ("Hi".data) ⟨ChunkMode.auto, 100, true⟩ = ["Hi".data] :=
  C6_amended.2 ("Hi".data) ⟨ChunkMode.auto, 100, true⟩ (by decide) (by decide) (by decide)

/-- C6 counterexample: `s = "AB"` with `maxLength = 1` has effective length
2 ≤ the single-SMS limit, yet the result is `["A…"]`, not `["AB"]` — hard
truncation fires first, refuting the claim as stated. -/
theorem C6_counterexample :
    ((if isGsm7 ("AB".data) then gsm7Length ("AB".data) else ("AB".data).length) ≤
      (if isGsm7 ("AB".data) then 160 else 70)) ∧
    chunkSms ("AB".data) ⟨ChunkMode.auto, 1, false⟩ = ["A…".data] ∧
    chunkSms ("AB".data) ⟨ChunkMode.auto, 1, false⟩ ≠ ["AB".data] := by decide

/-- C10: truncating an over-long all-GSM-7 text appends `…` (U+2026), which
belongs to neither GSM-7 set, so the truncated message classifies as UCS-2
and the rest of `chunkSms` runs as `chunkEncoded` with the UCS-2 flag
(single limit 70, multi-part limit 67) instead of the GSM-7 limits. -/
theorem C10_truncation_forces_ucs2 (s : List Char) (o : ChunkOptions)
    (hg : ∀ c ∈ s, GSM7_CHARS.contains c ∨ GSM7_EXTENDED.contains c)
    (hlen : s.length > o.maxLength) :
    GSM7_CHARS.contains '…' = false ∧ GSM7_EXTENDED.contains '…' = false ∧
    isGsm7 (s.take o.maxLength ++ ['…']) = false ∧
    chunkSms s o = chunkEncoded (s.take o.maxLength ++ ['…']) false o := by
  have hc : GSM7_CHARS.contains '…' = false := by decide
  have he : GSM7_EXTENDED.contains '…' = false := by decide
  have hu : isGsm7 (s.take o.maxLength ++ ['…']) = false := by
    simp only [isGsm7]
    simp
    exact fun _ => ⟨by decide, by decide⟩
  have hempty : s.isEmpty = false := by
    cases s with
    | nil => simp at hlen
    | cons a t => rfl
  refine ⟨hc, he, hu, ?_⟩
  simp only [chunkSms, hempty, Bool.false_eq_true, if_false, if_pos hlen, hu]

/-- Helper: the Twilio parse depends on the clock only through event
timestamps. -/
theorem twilioParse_clock_free (ctx : WebhookContext) (n₁ n₂ : Int) :
    eraseClock (twilioParseInboundSms n₁ ctx) = eraseClock (twilioParseInboundSms n₂ ctx) := by
  simp only [twilioParseInboundSms]
  split_ifs <;> simp [eraseClock, eraseEventClock]

/-- Helper: the Telnyx parse depends on the clock only through event
timestamps. -/
theorem telnyxParse_clock_free (jp : JsonParseFn) (ctx : WebhookContext) (n₁ n₂ : Int) :
    (telnyxParseInboundSms jp n₁ ctx).map eraseClock =
      (telnyxParseInboundSms jp n₂ ctx).map eraseClock := by
  unfold telnyxParseInboundSms
  cases h : jp ctx.rawBody with
  | none => rfl
  | some payload =>
    cases payload <;>
      first
        | rfl
        | (dsimp only
           split_ifs <;> (repeat' split) <;> simp [Except.map, eraseClock, eraseEventClock])

/-- Helper: the shared Plivo classification tail depends on the clock only
through timestamps and the synthesized fallback messageId. -/
theorem plivoClassify_clock_free (jp : JsonParseFn) (ctx : WebhookContext) (isJson : Bool)
    (fromV toV textV uuidV : JsValue) (mtype : Option JsValue) (n₁ n₂ : Int) :
    (plivoClassify jp n₁ ctx isJson fromV toV textV uuidV mtype).map eraseClockId =
      (plivoClassify jp n₂ ctx isJson fromV toV textV uuidV mtype).map eraseClockId := by
  unfold plivoClassify
  dsimp only
  split_ifs <;> (repeat' split) <;> simp [Except.map, eraseClockId, eraseEventClockId]

/-- Helper: the Plivo parse depends on the clock only through timestamps and
the fallback messageId. -/
theorem plivoParse_clock_free (jp : JsonParseFn) (ctx : WebhookContext) (n₁ n₂ : Int) :
    (plivoParseInboundSms jp n₁ ctx).map eraseClockId =
      (plivoParseInboundSms jp n₂ ctx).map eraseClockId := by
  unfold plivoParseInboundSms
  dsimp only
  (repeat' split) <;>
    first
      | rfl
      | exact plivoClassify_clock_free _ _ _ _ _ _ _ _ n₁ n₂

/-- Helper: the Mock parse depends on the clock only through timestamps and
the fallback messageId. -/
theorem mockParse_clock_free (jp : JsonParseFn) (ctx : WebhookContext) (n₁ n₂ : Int) :
    eraseClockId (mockParseInboundSms jp n₁ ctx) =
      eraseClockId (mockParseInboundSms jp n₂ ctx) := by
  unfold mockParseInboundSms
  (repeat' split) <;> simp_all [eraseClockId, eraseEventClockId]

/-- C2 (amended): each adapter's `parseInboundSms` is a deterministic pure
function of the `WebhookContext` and the sampled clock (`Date.now()`), and
two parses of the same context differ at most in the clock-derived fields:
the per-event `timestamp`, plus — for Plivo and Mock, which synthesize
clock-based fallback ids — the inbound `messageId`.  (The `jp` parameter is
the deterministic `JSON.parse`.) -/
theorem C2_parse_deterministic_modulo_clock :
    (∀ (ctx : WebhookContext) (n₁ n₂ : Int),
      eraseClock (twilioParseInboundSms n₁ ctx) = eraseClock (twilioParseInboundSms n₂ ctx)) ∧
    (∀ (jp : JsonParseFn) (ctx : WebhookContext) (n₁ n₂ : Int),
      (telnyxParseInboundSms jp n₁ ctx).map eraseClock =
        (telnyxParseInboundSms jp n₂ ctx).map eraseClock) ∧
    (∀ (jp : JsonParseFn) (ctx : WebhookContext) (n₁ n₂ : Int),
      (plivoParseInboundSms jp n₁ ctx).map eraseClockId =
        (plivoParseInboundSms jp n₂ ctx).map eraseClockId) ∧
    (∀ (jp : JsonParseFn) (ctx : WebhookContext) (n₁ n₂ : Int),
      eraseClockId (mockParseInboundSms jp n₁ ctx) =
        eraseClockId (mockParseInboundSms jp n₂ ctx)) :=
  ⟨twilioParse_clock_free, telnyxParse_clock_free, plivoParse_clock_free, mockParse_clock_free⟩

/-- C2 counterexample: parsing the same Twilio context at two different
clock readings yields different results (the event timestamps differ), so
re-parsing the same raw context is not bit-identical as claimed. -/
theorem C2_counterexample :
    (twilioParseInboundSms 0 c2Ctx).events.map eventTimestamp = [0] ∧
    (twilioParseInboundSms 1 c2Ctx).events.map eventTimestamp = [1] ∧
    twilioParseInboundSms 0 c2Ctx ≠ twilioParseInboundSms 1 c2Ctx := by
  refine ⟨rfl, rfl, fun h => ?_⟩
  have h2 := congrArg (fun r => r.events.map eventTimestamp) h
  exact absurd (h2 : ([0] : List Int) = [1]) (by decide)

/-- C3 (amended): the Twilio adapter classifies a form body as a
delivery-status callback iff it carries a non-empty `MessageStatus` (or
legacy `SmsStatus`), no non-empty `Body`, *and* a non-empty `MessageSid`
(or legacy `SmsSid`) — the last conjunct is what the original claim lacked;
otherwise, a record with a message sid yields exactly one `inbound_sms`
event with media from `MediaUrl0..MediaUrl{NumMedia-1}`, and a record with
no sid yields zero events. -/
theorem C3_twilio_classification (now : Int) (ctx : WebhookContext) :
    ((twilioParseInboundSms now ctx).events.any isDeliveryStatusEvent =
      twilioDlrCond (formPairs ctx.rawBody)) ∧
    (twilioDlrCond (formPairs ctx.rawBody) = false →
      strTruthy (twilioSidParam (formPairs ctx.rawBody)) = true →
      (twilioParseInboundSms now ctx).events =
        [(.inboundSms (.str ((twilioSidParam (formPairs ctx.rawBody)).getD []))
            (.str (strOrEmpty (getParam (formPairs ctx.rawBody) ("From".data))))
            (.str (strOrEmpty (getParam (formPairs ctx.rawBody) ("To".data))))
            (.str (strOrEmpty (getParam (formPairs ctx.rawBody) ("Body".data))))
            now
            (if (twilioClaimMedia (formPairs ctx.rawBody)).length > 0 then
              some (twilioClaimMedia (formPairs ctx.rawBody)) else none)
            (if strTruthy (getParam (formPairs ctx.rawBody) ("NumSegments".data)) then
              some (jsParseInt ((getParam (formPairs ctx.rawBody) ("NumSegments".data)).getD []))
            else none))]) ∧
    (twilioDlrCond (formPairs ctx.rawBody) = false →
      strTruthy (twilioSidParam (formPairs ctx.rawBody)) = false →
      (twilioParseInboundSms now ctx).events = []) := by
  simp only [twilioParseInboundSms, twilioDlrCond, twilioSidParam, twilioStatusParam,
    twilioClaimMedia, twilioNumMedia]
  split_ifs with h1 h2 <;>
    simp_all [isDeliveryStatusEvent]

/-- C3 witness: the classification equation at a concrete inbound message. -/
theorem C3_witness :
    (twilioParseInboundSms 0 c3wCtx).events.any isDeliveryStatusEvent =
      twilioDlrCond (formPairs c3wCtx.rawBody) :=
  (C3_twilio_classification 0 c3wCtx).1

/-- C3 counterexample: a body carrying `MessageStatus=delivered` and no
`Body` — which the claim says is classified as a delivery-status callback —
produces zero events, because it has no `MessageSid`/`SmsSid`. -/
theorem C3_counterexample :
    getParam (formPairs c3Ctx.rawBody) ("MessageStatus".data) = some ("delivered".data) ∧
    getParam (formPairs c3Ctx.rawBody) ("Body".data) = none ∧
    (twilioParseInboundSms 0 c3Ctx).events = [] := by
  refine ⟨rfl, rfl, rfl⟩

/-- C4 (amended): with verification not skipped, a configured public key
and both Telnyx headers present, a timestamp more than 300 s away from
`now` is rejected with the staleness reason — for *every* crypto
environment, i.e. before and independently of any Ed25519 verification.
(The original claim also covers contexts with no signature header and
adapters with `skipSignatureVerification`; those are rejected for a
different reason, resp. accepted — see the counterexample.) -/
theorem C4_telnyx_stale_rejected_before_crypto (env : CryptoEnv)
    (opts : TelnyxProviderOptions) (now : Int) (ctx : WebhookContext)
    (sig ts : List Char) (t : Int)
    (hskip : opts.skipSignatureVerification = false)
    (hkey : strTruthy opts.publicKey = true)
    (hsig : headerString (getHeader ctx ("telnyx-signature-ed25519".data)) = some sig)
    (hts : headerString (getHeader ctx ("telnyx-timestamp".data)) = some ts)
    (ht : jsParseInt ts = some t)
    (hstale : (now - t * 1000).natAbs > 300000) :
    telnyxVerifyWebhook env opts now ctx = .fail ("Webhook timestamp too old".data) := by
  unfold telnyxVerifyWebhook
  rw [hskip, hkey, hsig, hts]
  dsimp only
  rw [ht]
  simp [hstale]

/-- C4 witness: a concrete stale webhook is rejected as too old. -/
theorem C4_witness :
    telnyxVerifyWebhook stdCrypto c4Opts 400000 c4wCtx =
      .fail ("Webhook timestamp too old".data) :=
  C4_telnyx_stale_rejected_before_crypto stdCrypto c4Opts 400000 c4wCtx
    ("c2ln".data) ("0".data) 0 rfl (by decide) (by decide) (by decide) (by decide) (by decide)

/-- C4 counterexample: a context with a configured public key whose
timestamp is 400 s in the past (premises of the claim) but whose signature
header is missing is rejected with the missing-header reason, not a reason
mentioning staleness, refuting the claim as stated. -/
theorem C4_counterexample :
    strTruthy c4Opts.publicKey = true ∧
    jsParseInt ("0".data) = some 0 ∧
    ((400000 : Int) - 0 * 1000).natAbs > 300000 ∧
    telnyxVerifyWebhook stdCrypto c4Opts 400000 c4Ctx =
      .fail ("Missing telnyx-signature-ed25519 header".data) ∧
    ("Missing telnyx-signature-ed25519 header".data : List Char) ≠
      ("Webhook timestamp too old".data : List Char) := by decide

/-- C1 (code bug): `TwilioProvider.verifyWebhook` can throw.  With a
28-character signature header containing a non-ASCII character, the
string-length guard passes (the HMAC-SHA1 base64 digest is 28 characters)
but `Buffer.from` yields 29 bytes versus 28, and `crypto.timingSafeEqual`
throws a `RangeError` instead of returning `{ok:false}`. -/
theorem C1_verify_throws_on_multibyte_signature :
    ('é' :: List.replicate 27 'A').length = 28 ∧
    utf8Len ('é' :: List.replicate 27 'A') = 29 ∧
    twilioVerifyWebhook stdCrypto c1Opts c1Ctx =
      .error (.rangeError ("Input buffers must have the same byte length".data)) :=
  ⟨by decide, by decide, by rfl⟩

/-- C7 (amended): every status-mapping function returns a member of the
closed `MessageStatus` set (its codomain) and is total, so unmapped strings
never cause a processing failure; unmapped strings map to `unknown` for the
Twilio, Plivo and Telnyx delivery-event mappers, but the Telnyx
send-response mapper defaults to `queued` instead. -/
theorem C7_status_mapping_defaults :
    (∀ s : List Char, jsToLower s ∉ twilioMappedStatuses → mapTwilioStatus s = .unknown) ∧
    (∀ s : List Char, s ∉ telnyxEventTypes → mapTelnyxStatus s = .unknown) ∧
    (∀ s : List Char, jsToLower s ∉ plivoMappedStatuses → mapPlivoStatus s = .unknown) ∧
    (∀ os : Option (List Char), (∀ s, os = some s → s ∉ telnyxSendMapped) →
      mapTelnyxSendStatus os = .queued) := by
  refine ⟨?_, ?_, ?_, ?_⟩
  · intro s h
    simp only [mapTwilioStatus]
    split_ifs <;> simp_all [twilioMappedStatuses]
  · intro s h
    simp only [mapTelnyxStatus]
    split_ifs <;> simp_all [telnyxEventTypes]
  · intro s h
    simp only [mapPlivoStatus]
    split_ifs <;> simp_all [plivoMappedStatuses]
  · intro os h
    match os with
    | none => rfl
    | some s =>
      have hs := h s rfl
      simp only [mapTelnyxSendStatus]
      split_ifs <;> simp_all [telnyxSendMapped]

/-- C7 witness: the defaults at concrete unmapped strings. -/
theorem C7_witness :
    mapTwilioStatus ("zzz".data) = .unknown ∧
    mapTelnyxStatus ("zzz".data) = .unknown ∧
    mapPlivoStatus ("zzz".data) = .unknown ∧
    mapTelnyxSendStatus (some ("zzz".data)) = .queued :=
  ⟨C7_status_mapping_defaults.1 ("zzz".data) (by decide),
   C7_status_mapping_defaults.2.1 ("zzz".data) (by decide),
   C7_status_mapping_defaults.2.2.1 ("zzz".data) (by decide),
   C7_status_mapping_defaults.2.2.2 (some ("zzz".data)) (by decide)⟩

/-- C7 counterexample: `"undelivered"` is not explicitly mapped by the
Telnyx send-status mapper, yet it maps to `queued`, not `unknown` as the
claim requires. -/
theorem C7_counterexample :
    mapTelnyxSendStatus (some ("undelivered".data)) = .queued ∧
    MessageStatus.queued ≠ MessageStatus.unknown := by decide

/-- C8 (amended): `GET /health` is served with the active provider's name;
any other non-POST request receives 405 (the method check precedes the path
check); and a POST whose pathname starts with neither configured path
prefix receives 404. -/
theorem C8_routing (p : ProviderModel) (wp sp : List Char) (req : ServerRequest)
    (b : Except BodyReadError (List Char)) :
    (pathnameOf req.url = "/health".data → req.method = "GET".data →
      handleRequest p wp sp req b =
        { statusCode := 200, body := healthJson p.name, headers := [] }) ∧
    (¬(pathnameOf req.url = "/health".data ∧ req.method = "GET".data) →
      req.method ≠ "POST".data →
      (handleRequest p wp sp req b).statusCode = 405) ∧
    (req.method = "POST".data →
      wp.isPrefixOf (pathnameOf req.url) = false →
      sp.isPrefixOf (pathnameOf req.url) = false →
      (handleRequest p wp sp req b).statusCode = 404) := by
  refine ⟨?_, ?_, ?_⟩
  · intro h1 h2
    simp [handleRequest, h1, h2]
  · intro h1 h2
    have hcond : (pathnameOf req.url == "/health".data && req.method == "GET".data) = false := by
      by_cases hp : pathnameOf req.url = "/health".data
      · have hm : req.method ≠ "GET".data := fun hm => h1 ⟨hp, hm⟩
        simp [beq_iff_eq, hm]
      · simp [beq_iff_eq, hp]
    have hpost : (req.method == "POST".data) = false := by
      simp [beq_iff_eq, h2]
    simp [handleRequest, hcond, hpost]
  · intro h1 h2 h3
    have hcond : (pathnameOf req.url == "/health".data && req.method == "GET".data) = false := by
      have : (req.method == "GET".data) = false := by
        simp only [beq_eq_false_iff_ne, ne_eq, h1]
        decide
      simp [this]
    simp [handleRequest, hcond, h1, h2, h3]

/-- C8 witness: a POST to an unconfigured path receives 404. -/
theorem C8_witness :
    (handleRequest trivialProvider ("/telephony/webhook".data) ("/telephony/status".data)
      c8PostReq (.ok [])).statusCode = 404 :=
  (C8_routing trivialProvider ("/telephony/webhook".data) ("/telephony/status".data)
    c8PostReq (.ok [])).2.2 rfl (by decide) (by decide)

/-- C8 counterexample: a GET to `/foo` — a path other than `/health` and
both configured paths, which the claim says receives 404 — actually
receives 405, because the method check runs before the path check. -/
theorem C8_counterexample :
    (handleRequest trivialProvider ("/telephony/webhook".data) ("/telephony/status".data)
      c8Req (.ok [])).statusCode = 405 ∧
    (405 : Nat) ≠ 404 := by decide

/-- C9: with `skipSignatureVerification` set, each adapter's
`verifyWebhook` returns `{ok:true}` unconditionally, for every context,
clock and crypto environment — no header, freshness or signature check is
performed. -/
theorem C9_skip_bypasses_verification (env : CryptoEnv)
    (topts : TwilioProviderOptions) (xopts : TelnyxProviderOptions)
    (popts : PlivoProviderOptions) (now : Int) (ctx : WebhookContext)
    (h1 : topts.skipSignatureVerification = true)
    (h2 : xopts.skipSignatureVerification = true)
    (h3 : popts.skipSignatureVerification = true) :
    twilioVerifyWebhook env topts ctx = .ok WebhookVerificationResult.ok ∧
    telnyxVerifyWebhook env xopts now ctx = WebhookVerificationResult.ok ∧
    plivoVerifyWebhook env popts ctx = .ok WebhookVerificationResult.ok := by
  unfold twilioVerifyWebhook telnyxVerifyWebhook plivoVerifyWebhook
  rw [h1, h2, h3]
  exact ⟨rfl, rfl, rfl⟩

/-- C9 witness: the bypass at concrete adapters and a concrete context. -/
theorem C9_witness :
    twilioVerifyWebhook stdCrypto
      { accountSid := "AC".data, authToken := "t".data, messagingServiceSid := none,
        publicUrl := none, skipSignatureVerification := true } c4Ctx =
      .ok WebhookVerificationResult.ok ∧
    telnyxVerifyWebhook stdCrypto
      { apiKey := "k".data, messagingProfileId := none, publicKey := some ("Zm9v".data),
        skipSignatureVerification := true } 400000 c4Ctx =
      WebhookVerificationResult.ok ∧
    plivoVerifyWebhook stdCrypto
      { authId := "MA".data, authToken := "t".data, skipSignatureVerification := true,
        publicUrl := none } c4Ctx =
      .ok WebhookVerificationResult.ok :=
  C9_skip_bypasses_verification stdCrypto _ _ _ 400000 c4Ctx rfl rfl rfl

/-- C10 witness: the hypotheses and conclusion at `s = "AB"`,
`maxLength = 1`. -/
theorem C10_witness :
    (∀ c ∈ ("AB".data), GSM7_CHARS.contains c ∨ GSM7_EXTENDED.contains c) ∧
    ("AB".data).length > (1 : Nat) ∧
    isGsm7 (("AB".data).take 1 ++ ['…']) = false ∧
    chunkSms ("AB".data) ⟨ChunkMode.auto, 1, true⟩ =
      chunkEncoded (("AB".data).take 1 ++ ['…']) false ⟨ChunkMode.auto, 1, true⟩ := by
  refine ⟨by decide, by decide, ?_, ?_⟩
  · exact (C10_truncation_forces_ucs2 ("AB".data) ⟨ChunkMode.auto, 1, true⟩
      (by decide) (by decide)).2.2.1
  · exact (C10_truncation_forces_ucs2 ("AB".data) ⟨ChunkMode.auto, 1, true⟩
      (by decide) (by decide)).2.2.2

end Clawdbot
